import Mathlib

/-!
Shallow embedding of the IntelliScan scan engine
(`src/scanner/network_scanner.py` and `src/scanner/anomaly_detection.py`)
together with theorems settling the specification claims about it.

Network effects (scapy `sr1` / `srp` replies and exceptions raised by the
transport) are modelled as explicit environment parameters; the port and
discovery classification logic, the anomaly rules and the orchestration
bookkeeping are translated function-by-function from the source.
-/

set_option autoImplicit false

namespace IntelliScan

/-- Result record for one probed port, mirroring the dict built by
`NetworkScanner._scan_port` (`status`, `service`, optional `error`). -/
structure PortResult where
  status : String
  service : String
  error : Option String := none
  deriving DecidableEq, Repr

/-- `NetworkScanner._guess_service`: fixed port → service-name table with
an `Unknown (<port>)` fallback. -/
def guess_service (port : Nat) : String :=
  if port = 21 then "FTP"
  else if port = 22 then "SSH"
  else if port = 23 then "Telnet"
  else if port = 25 then "SMTP"
  else if port = 53 then "DNS"
  else if port = 80 then "HTTP"
  else if port = 110 then "POP3"
  else if port = 143 then "IMAP"
  else if port = 443 then "HTTPS"
  else if port = 445 then "SMB"
  else if port = 3306 then "MySQL"
  else if port = 3389 then "RDP"
  else if port = 5432 then "PostgreSQL"
  else if port = 8080 then "HTTP-Proxy"
  else if port = 8443 then "HTTPS-Alt"
  else "Unknown (" ++ toString port ++ ")"

/-- What the network did when `_scan_port` sent its SYN probe via `sr1`:
the call raised, returned `None`, returned a packet without a TCP layer,
or returned a packet whose TCP layer carries the given flags. -/
inductive ScanPortOutcome where
  | exn (msg : String)
  | noReply
  | replyNoTCP
  | replyTCP (flags : Nat)
  deriving DecidableEq, Repr

/-- `NetworkScanner._scan_port` classification: default status `closed`;
on a TCP reply, `flags & 0x12` nonzero sets `open`, else `flags & 0x14`
nonzero sets `closed`; an exception yields status `error` with the message
recorded, `service` always filled from `guess_service`. -/
def scan_port (outcome : ScanPortOutcome) (port : Nat) : PortResult :=
  match outcome with
  | .exn msg => { status := "error", error := some msg, service := guess_service port }
  | .noReply => { status := "closed", service := guess_service port }
  | .replyNoTCP => { status := "closed", service := guess_service port }
  | .replyTCP flags =>
      if flags &&& 0x12 ≠ 0 then
        { status := "open", service := guess_service port }
      else if flags &&& 0x14 ≠ 0 then
        { status := "closed", service := guess_service port }
      else
        { status := "closed", service := guess_service port }

/-- Python `str.startswith`: `pre` is a prefix of `s` (stated on the
character lists underlying the strings). -/
def starts_with (s pre : String) : Bool :=
  pre.data.isPrefixOf s.data

/-- `NetworkScanner._is_ip_in_local_network`: pure string-prefix test. -/
def is_ip_in_local_network (ip : String) : Bool :=
  starts_with ip "192.168." || starts_with ip "10." || starts_with ip "172."

/-- What the network did when `_discover_hosts` probed one target: the
probe call raised, got some reply (`srp` answered list nonempty on the ARP
path, `sr1` non-`None` on the SYN path), or got none. -/
inductive DiscProbeResult where
  | exn (msg : String)
  | reply
  | noReply
  deriving DecidableEq, Repr

/-- `NetworkScanner._discover_hosts`: per target, ARP-probe when
`_is_ip_in_local_network`, else TCP-SYN-to-port-80 probe; any reply marks
the target live; an exception in the probe also keeps the target
("include it anyway to be thorough"). -/
def discover_hosts (arp syn : String → DiscProbeResult) (targets : List String) :
    List String :=
  targets.filter fun t =>
    if is_ip_in_local_network t then
      match arp t with
      | .exn _ => true
      | .reply => true
      | .noReply => false
    else
      match syn t with
      | .exn _ => true
      | .reply => true
      | .noReply => false

/-- Per-target entry of the scan `results` dict:
`{'status': 'scanned', 'ports': {port: PortResult}}`; the inner dict is an
association list in insertion (= submission) order. -/
structure TargetEntry where
  status : String
  ports : List (Nat × PortResult)
  deriving DecidableEq, Repr

/-- One anomaly record produced by `AnomalyDetector`.  The three rules
populate different key sets of the Python dict; unused keys are `none` /
`[]` here. -/
structure Finding where
  type : String
  target : Option String := none
  targets : List String := []
  port : Option Nat := none
  ports : List Nat := []
  service : Option String := none
  description : String
  severity : String
  confidence : ℚ
  deriving DecidableEq, Repr

/-- Open-port extraction shared by the three rules: the ports of a target
entry whose `status` is `open`, in dict (insertion) order. -/
def open_ports_of (td : TargetEntry) : List Nat :=
  (td.ports.filter fun x => x.2.status == "open").map Prod.fst

/-- The fixed `suspicious_combinations` table of
`AnomalyDetector._check_unusual_port_combinations`. -/
def suspicious_combinations : List (List Nat × String) :=
  [([22, 2222], "Multiple SSH ports open"),
   ([80, 8080, 8888], "Multiple HTTP ports open"),
   ([21, 22, 23], "Multiple remote access services"),
   ([3306, 5432], "Multiple database services")]

/-- `AnomalyDetector._check_unusual_port_combinations`: per target and
suspicious set, emit a medium/0.75 finding naming the matching ports when
at least two of the set's ports are open on the target. -/
def check_unusual_port_combinations (results : List (String × TargetEntry)) :
    List Finding :=
  results.flatMap fun x =>
    let open_ports := open_ports_of x.2
    suspicious_combinations.filterMap fun combo =>
      let matching_ports := combo.1.filter fun p => open_ports.contains p
      if 2 ≤ matching_ports.length then
        some { type := "unusual_port_combination", target := some x.1,
               ports := matching_ports, description := combo.2,
               severity := "medium", confidence := 0.75 }
      else
        none

/-- The fixed `vulnerable_services` table of
`AnomalyDetector._check_potential_vulnerabilities`:
(port, service, description, severity). -/
def vulnerable_services : List (Nat × String × String × String) :=
  [(21, "FTP", "Plaintext FTP service detected", "high"),
   (23, "Telnet", "Plaintext Telnet service detected", "high"),
   (25, "SMTP", "SMTP service might be vulnerable to relay attacks", "medium"),
   (445, "SMB", "SMB service might be vulnerable to exploits", "high"),
   (3389, "RDP", "RDP service might be vulnerable to brute force", "medium")]

/-- `AnomalyDetector._check_potential_vulnerabilities`: per open port
matching a table entry, emit a 0.8-confidence finding with the table's
severity; `service` is taken from the port result when present. -/
def check_potential_vulnerabilities (results : List (String × TargetEntry)) :
    List Finding :=
  results.flatMap fun x =>
    x.2.ports.flatMap fun pd =>
      if pd.2.status == "open" then
        vulnerable_services.filterMap fun vuln =>
          if pd.1 = vuln.1 then
            some { type := "potential_vulnerability", target := some x.1,
                   port := some pd.1, service := some pd.2.service,
                   description := vuln.2.2.1, severity := vuln.2.2.2,
                   confidence := 0.8 }
          else
            none
      else
        []

/-- Python `sorted` on a list of port numbers (insertion sort, ascending). -/
def insort (n : Nat) : List Nat → List Nat
  | [] => [n]
  | m :: ms => if n ≤ m then n :: m :: ms else m :: insort n ms

/-- Python `tuple(sorted(l))` for port lists. -/
def sort_ports (l : List Nat) : List Nat :=
  l.foldr insort []

/-- The `targets_with_open_ports` dict of
`AnomalyDetector._check_unusual_network_patterns`: targets having at
least one open port, with their open-port lists, in results order. -/
def targets_with_open_ports (results : List (String × TargetEntry)) :
    List (String × List Nat) :=
  results.filterMap fun x =>
    let open_ports := open_ports_of x.2
    if open_ports = [] then none else some (x.1, open_ports)

/-- One step of building the `port_patterns` dict: append target `t` to
the group of key `pat`, creating the group at the end when absent
(Python dict insertion order). -/
def add_to_pattern (acc : List (List Nat × List String)) (pat : List Nat)
    (t : String) : List (List Nat × List String) :=
  match acc with
  | [] => [(pat, [t])]
  | g :: rest =>
      if g.1 = pat then (g.1, g.2 ++ [t]) :: rest
      else g :: add_to_pattern rest pat t

/-- The `port_patterns` grouping of
`AnomalyDetector._check_unusual_network_patterns`: group the targets by
the sorted tuple of their open ports. -/
def port_patterns (twop : List (String × List Nat)) :
    List (List Nat × List String) :=
  twop.foldl (fun acc x => add_to_pattern acc (sort_ports x.2) x.1) []

/-- The finding one port-pattern group contributes in
`AnomalyDetector._check_unusual_network_patterns`: emitted exactly when
the group has more than one member and the pattern is longer than 2. -/
def pattern_finding (g : List Nat × List String) : Option Finding :=
  if 1 < g.2.length ∧ 2 < g.1.length then
    some { type := "identical_port_pattern", targets := g.2, ports := g.1,
           description := "Multiple hosts (" ++ toString g.2.length ++
             ") have identical open port patterns",
           severity := "low", confidence := 0.7 }
  else
    none

/-- `AnomalyDetector._check_unusual_network_patterns`: when more than one
target has open ports, emit one low/0.7 finding per port-pattern group
having more than one member and a pattern longer than 2. -/
def check_unusual_network_patterns (results : List (String × TargetEntry)) :
    List Finding :=
  if 1 < (targets_with_open_ports results).length then
    (port_patterns (targets_with_open_ports results)).filterMap pattern_finding
  else
    []

/-- `AnomalyDetector.detect`: the three rule passes, appended in this
fixed order. -/
def detect (results : List (String × TargetEntry)) : List Finding :=
  check_unusual_port_combinations results ++
    check_potential_vulnerabilities results ++
    check_unusual_network_patterns results

/-- Environment of one scan execution: what the network answers on the
discovery probes (`arp` for the local path, `syn` for the remote path) and
on each `_scan_port` SYN probe, plus injection points for unexpected
exceptions reaching `_execute_scan`'s `except` clause: one raised inside
`_discover_hosts` as a whole (before any target entry is created), one
inside `_detect_anomalies`, one inside `_save_results`. -/
structure ExecEnv where
  arp : String → DiscProbeResult
  syn : String → DiscProbeResult
  probe : String → Nat → ScanPortOutcome
  discovery_exn : Option String := none
  detect_exn : Option String := none
  save_exn : Option String := none

/-- The entry of `self.active_scans[scan_id]`: `status`, `progress`,
optional `error`, and its `results` dict (written by `start_scan` and
never touched again — `_execute_scan` accumulates into a separate local
dict).  Wall-clock bookkeeping fields are omitted. -/
structure ActiveScan where
  status : String
  progress : ℚ
  error : Option String := none
  results : List (String × TargetEntry) := []
  deriving DecidableEq, Repr

/-- The local `results` dict of `_execute_scan`, stored into
`self.scan_results[scan_id]` and the results file on success
(wall-clock fields omitted). -/
structure ScanResults where
  scan_id : String
  targets : List String
  ports : List Nat
  results : List (String × TargetEntry)
  anomalies : List Finding := []
  deriving DecidableEq, Repr

/-- `progress = (completed_tasks / total_tasks) * 100` as recomputed after
each completed future. -/
def progress_value (completed total : Nat) : ℚ :=
  ((completed : ℚ) / (total : ℚ)) * 100

/-- The successive `progress` values written while draining the `futures`
list: one update per completed task. -/
def progress_trace (n total : Nat) : List (String × ℚ) :=
  (List.range n).map fun k => ("running", progress_value (k + 1) total)

/-- The value `progress` holds once the futures loop has finished
(still `0` when no task was submitted). -/
def last_progress (n total : Nat) : ℚ :=
  if n = 0 then 0 else progress_value n total

/-- The `futures` list: one `_scan_port` task per (live target, port)
pair, submitted in that nesting order. -/
def scan_tasks (live : List String) (ports : List Nat) : List (String × Nat) :=
  live.flatMap fun t => ports.map fun p => (t, p)

/-- The per-target entry `{'status': 'scanned', 'ports': {...}}` that one
live target's tasks leave behind once all its ports are probed. -/
def target_entry (env : ExecEnv) (t : String) (ports : List Nat) : TargetEntry :=
  { status := "scanned", ports := ports.map fun p => (p, scan_port (env.probe t p) p) }

/-- The fully populated `results['results']` dict: one entry per live
target, in discovery order. -/
def results_map (env : ExecEnv) (live : List String) (ports : List Nat) :
    List (String × TargetEntry) :=
  live.map fun t => (t, target_entry env t ports)

/-- Outcome of one `_execute_scan` run: the successive
`(status, progress)` values of `self.active_scans[scan_id]` (one entry
per assignment, starting from the record `start_scan` created), the final
`active_scans` entry, and what got stored into `self.scan_results` and
the results file. -/
structure ExecResult where
  trace : List (String × ℚ)
  finalActive : ActiveScan
  finalStored : Option ScanResults
  finalSaved : Option ScanResults

/-- `NetworkScanner._execute_scan`.  `total_tasks` is computed from
`targets` (not from the live hosts); the futures loop updates `progress`
per completed task; on success the scan is marked `completed`, `progress`
is set to `100`, the local results (with anomalies attached) are stored
into `scan_results` and saved to file; any exception reaching the
`except` clause sets `status = 'error'` with the message, leaving
everything already assigned as is. -/
def execute_scan (env : ExecEnv) (scan_id : String) (targets : List String)
    (ports : List Nat) : ExecResult :=
  match env.discovery_exn with
  | some msg =>
      { trace := [("running", 0), ("error", 0)],
        finalActive := { status := "error", progress := 0, error := some msg },
        finalStored := none, finalSaved := none }
  | none =>
      let live := discover_hosts env.arp env.syn targets
      let total := targets.length * ports.length
      let n := (scan_tasks live ports).length
      let ptrace := progress_trace n total
      let lastp := last_progress n total
      match env.detect_exn with
      | some msg =>
          { trace := ("running", 0) :: ptrace ++ [("error", lastp)],
            finalActive := { status := "error", progress := lastp, error := some msg },
            finalStored := none, finalSaved := none }
      | none =>
          let stored : ScanResults :=
            { scan_id := scan_id, targets := targets, ports := ports,
              results := results_map env live ports,
              anomalies := detect (results_map env live ports) }
          match env.save_exn with
          | some msg =>
              { trace := ("running", 0) :: ptrace ++
                  [("completed", lastp), ("completed", 100), ("error", 100)],
                finalActive := { status := "error", progress := 100, error := some msg },
                finalStored := some stored, finalSaved := none }
          | none =>
              { trace := ("running", 0) :: ptrace ++
                  [("completed", lastp), ("completed", 100)],
                finalActive := { status := "completed", progress := 100 },
                finalStored := some stored, finalSaved := some stored }

/-- The scanner's shared mutable registries: `self.active_scans`,
`self.scan_results`, and the results files on disk, all keyed by scan id. -/
structure ScannerState where
  active_scans : List (String × ActiveScan) := []
  scan_results : List (String × ScanResults) := []
  saved_files : List (String × ScanResults) := []

/-- Python dict lookup on an association list (first matching key). -/
def alist_lookup {α : Type} (l : List (String × α)) (k : String) : Option α :=
  match l with
  | [] => none
  | x :: rest => if x.1 = k then some x.2 else alist_lookup rest k

/-- Python dict assignment `d[k] = v`: replace the existing entry in
place, else append. -/
def alist_insert {α : Type} (l : List (String × α)) (k : String) (v : α) :
    List (String × α) :=
  match l with
  | [] => [(k, v)]
  | x :: rest => if x.1 = k then (k, v) :: rest else x :: alist_insert rest k v

/-- `NetworkScanner.start_scan`: create the `active_scans` record in
`running` state with progress 0 and an empty results dict, then return
(the background execution is modelled separately by `run_scan`). -/
def start_scan (st : ScannerState) (scan_id : String) : ScannerState :=
  { st with
    active_scans :=
      alist_insert st.active_scans scan_id { status := "running", progress := 0 } }

/-- Effect of a full `_execute_scan` run on the shared registries. -/
def run_scan (env : ExecEnv) (st : ScannerState) (scan_id : String)
    (targets : List String) (ports : List Nat) : ScannerState :=
  let er := execute_scan env scan_id targets ports
  { active_scans := alist_insert st.active_scans scan_id er.finalActive,
    scan_results :=
      match er.finalStored with
      | some r => alist_insert st.scan_results scan_id r
      | none => st.scan_results,
    saved_files :=
      match er.finalSaved with
      | some r => alist_insert st.saved_files scan_id r
      | none => st.saved_files }

/-- What `get_scan_status` returns: either the `active_scans` record
itself, or the completed-summary dict rebuilt from stored results. -/
inductive StatusView where
  | active (a : ActiveScan)
  | summary (status : String) (progress : ℚ)
  deriving DecidableEq, Repr

/-- `NetworkScanner.get_scan_status`: the `active_scans` entry when
present, else a `completed` summary from in-memory or on-disk results,
else `None`. -/
def get_scan_status (st : ScannerState) (scan_id : String) : Option StatusView :=
  match alist_lookup st.active_scans scan_id with
  | some a => some (.active a)
  | none =>
      match alist_lookup st.scan_results scan_id with
      | some _ => some (.summary "completed" 100)
      | none =>
          match alist_lookup st.saved_files scan_id with
          | some _ => some (.summary "completed" 100)
          | none => none

/-- `NetworkScanner.get_scan_results`: the in-memory stored results when
present, else the saved file, else `None`. -/
def get_scan_results (st : ScannerState) (scan_id : String) : Option ScanResults :=
  match alist_lookup st.scan_results scan_id with
  | some r => some r
  | none => alist_lookup st.saved_files scan_id

example : scan_port (.replyTCP 0x12) 80 =
    { status := "open", service := "HTTP" } := by decide
example : scan_port (.replyTCP 0x14) 80 =
    { status := "open", service := "HTTP" } := by decide
example : scan_port .noReply 80 = { status := "closed", service := "HTTP" } := by decide
example : is_ip_in_local_network "172.217.0.1" = true := by decide
example : is_ip_in_local_network "8.8.8.8" = false := by decide
example : guess_service 1234 = "Unknown (1234)" := by decide
example :
    discover_hosts (fun _ => .noReply) (fun _ => .reply) ["172.217.0.1", "8.8.8.8"] =
      ["8.8.8.8"] := by decide

example :
    check_unusual_port_combinations
        [("h", ⟨"scanned", [(22, ⟨"open", "SSH", none⟩), (2222, ⟨"open", "Unknown (2222)", none⟩)]⟩)] =
      [{ type := "unusual_port_combination", target := some "h", ports := [22, 2222],
         description := "Multiple SSH ports open", severity := "medium",
         confidence := 0.75 }] := by rfl

example :
    check_unusual_port_combinations [("h", ⟨"scanned", [(22, ⟨"open", "SSH", none⟩)]⟩)] =
      [] := by rfl

example :
    check_unusual_network_patterns
        [("h1", ⟨"scanned", [(80, ⟨"open", "HTTP", none⟩), (443, ⟨"open", "HTTPS", none⟩), (8080, ⟨"open", "HTTP-Proxy", none⟩)]⟩),
         ("h2", ⟨"scanned", [(80, ⟨"open", "HTTP", none⟩), (443, ⟨"open", "HTTPS", none⟩), (8080, ⟨"open", "HTTP-Proxy", none⟩)]⟩),
         ("h3", ⟨"scanned", [(80, ⟨"open", "HTTP", none⟩), (443, ⟨"open", "HTTPS", none⟩), (8080, ⟨"open", "HTTP-Proxy", none⟩)]⟩)] =
      [{ type := "identical_port_pattern", targets := ["h1", "h2", "h3"],
         ports := [80, 443, 8080],
         description := "Multiple hosts (3) have identical open port patterns",
         severity := "low", confidence := 0.7 }] := by rfl

example :
    check_unusual_network_patterns
        [("h1", ⟨"scanned", [(80, ⟨"open", "HTTP", none⟩), (443, ⟨"open", "HTTPS", none⟩)]⟩),
         ("h2", ⟨"scanned", [(80, ⟨"open", "HTTP", none⟩), (443, ⟨"open", "HTTPS", none⟩)]⟩)] =
      [] := by rfl

example :
    (execute_scan
        { arp := fun _ => .noReply,
          syn := fun t => if t = "1.2.3.4" then .reply else .noReply,
          probe := fun _ _ => .replyTCP 0x12 }
        "s" ["1.2.3.4", "5.6.7.8"] [80]).trace =
      [("running", 0), ("running", progress_value 1 2),
       ("completed", progress_value 1 2), ("completed", 100)] := by rfl

example :
    (execute_scan
        { arp := fun _ => .noReply, syn := fun _ => .reply,
          probe := fun _ _ => .replyTCP 0x12, save_exn := some "disk full" }
        "s" ["1.2.3.4"] [80]).trace =
      [("running", 0), ("running", progress_value 1 1),
       ("completed", progress_value 1 1), ("completed", 100), ("error", 100)] := by rfl

example : progress_value 1 2 = 50 := by norm_num [progress_value]

/-! ### Helper lemmas -/

theorem scan_port_status_mem (o : ScanPortOutcome) (p : Nat) :
    (scan_port o p).status ∈ (["open", "closed", "filtered", "error"] : List String) := by
  cases o with
  | exn msg => simp [scan_port]
  | noReply => simp [scan_port]
  | replyNoTCP => simp [scan_port]
  | replyTCP flags =>
      simp only [scan_port]
      split_ifs <;> simp

theorem scan_tasks_length (live : List String) (ports : List Nat) :
    (scan_tasks live ports).length = live.length * ports.length := by
  induction live with
  | nil => simp [scan_tasks]
  | cons t ts ih =>
      simp only [scan_tasks, List.flatMap_cons, List.length_append, List.length_map,
        List.length_cons] at ih ⊢
      rw [ih]
      ring

theorem mem_discover_hosts {arp syn : String → DiscProbeResult} {targets : List String}
    {t : String} (h : t ∈ discover_hosts arp syn targets) : t ∈ targets :=
  (List.mem_filter.mp h).1

/-! ### Claim C1 -/

/-- C1 (code behaviour at the claimed inputs): a SYN+ACK (0x12) reply is
classified `open` and silence is classified `closed`, as claimed — but an
RST+ACK (0x14) reply is *also* classified `open`, and so is a bare ACK
(0x10): `_scan_port` tests `tcp_layer.flags & 0x12` as a bitmask, which is
nonzero for any flag set containing ACK or SYN, so the `elif
flags & 0x14` branch labelled `RST+ACK` is unreachable for actual RST+ACK
replies.  This contradicts the claimed classification of RST+ACK as
`closed`. -/
theorem c1_rst_ack_classified_open :
    (scan_port (.replyTCP 0x12) 22).status = "open"
    ∧ (scan_port .noReply 22).status = "closed"
    ∧ (scan_port (.replyTCP 0x14) 22).status = "open"
    ∧ (scan_port (.replyTCP 0x10) 22).status = "open" := by
  refine ⟨rfl, rfl, rfl, rfl⟩

/-! ### Claim C7 -/

/-- C7: `_discover_hosts` returns a subset of its input targets, and is
fail-open: a target whose liveness probe (ARP on the local-network path,
SYN elsewhere) raises an exception is included in the returned live-host
list. -/
theorem c7_discovery_subset_and_fail_open (arp syn : String → DiscProbeResult)
    (targets : List String) (t msg : String) (ht : t ∈ targets)
    (hexn : (if is_ip_in_local_network t then arp t else syn t) = .exn msg) :
    t ∈ discover_hosts arp syn targets
    ∧ ∀ u ∈ discover_hosts arp syn targets, u ∈ targets := by
  refine ⟨?_, fun u hu => mem_discover_hosts hu⟩
  refine List.mem_filter.mpr ⟨ht, ?_⟩
  by_cases hloc : is_ip_in_local_network t
  · rw [if_pos hloc] at hexn
    simp [hloc, hexn]
  · rw [if_neg hloc] at hexn
    simp [hloc, hexn]

/-- C7 witness: a local-network target whose ARP probe raises is kept. -/
theorem c7_witness :
    "10.0.0.5" ∈ discover_hosts (fun _ => .exn "no permission")
        (fun _ => .noReply) ["10.0.0.5"]
    ∧ ∀ u ∈ discover_hosts (fun _ => DiscProbeResult.exn "no permission")
        (fun _ => DiscProbeResult.noReply) ["10.0.0.5"], u ∈ ["10.0.0.5"] :=
  c7_discovery_subset_and_fail_open (fun _ => .exn "no permission")
    (fun _ => .noReply) ["10.0.0.5"] "10.0.0.5" "no permission"
    (by decide) (by decide)

/-! ### Claim C8 -/

/-- C8: rule 1 of the anomaly detector.  For every target in the results
and every entry of the fixed suspicious-set table, if at least two ports
of the set are open on the target, a finding of type
`unusual_port_combination` with severity `medium` and confidence 0.75
naming exactly the matching ports is emitted; a target with open ports
exactly {22, 2222} yields precisely one such finding referencing both
ports, and a target with only {22} open yields none. -/
theorem c8_unusual_port_combinations (results : List (String × TargetEntry))
    (t : String) (td : TargetEntry) (combo : List Nat × String)
    (hmem : (t, td) ∈ results) (hc : combo ∈ suspicious_combinations)
    (hlen : 2 ≤ (combo.1.filter fun p => (open_ports_of td).contains p).length) :
    ({ type := "unusual_port_combination", target := some t,
       ports := combo.1.filter fun p => (open_ports_of td).contains p,
       description := combo.2, severity := "medium",
       confidence := 0.75 } : Finding) ∈ check_unusual_port_combinations results
    ∧ check_unusual_port_combinations
        [("h", ⟨"scanned", [(22, ⟨"open", "SSH", none⟩),
          (2222, ⟨"open", "Unknown (2222)", none⟩)]⟩)] =
      [{ type := "unusual_port_combination", target := some "h",
         ports := [22, 2222], description := "Multiple SSH ports open",
         severity := "medium", confidence := 0.75 }]
    ∧ check_unusual_port_combinations
        [("h", ⟨"scanned", [(22, ⟨"open", "SSH", none⟩)]⟩)] = [] := by
  refine ⟨?_, rfl, rfl⟩
  unfold check_unusual_port_combinations
  refine List.mem_flatMap.mpr ⟨(t, td), hmem, ?_⟩
  refine List.mem_filterMap.mpr ⟨combo, hc, ?_⟩
  rw [if_pos hlen]

/-- C8 witness: the rule fires on a concrete results map where both 22
and 2222 are open. -/
theorem c8_witness :
    ({ type := "unusual_port_combination", target := some "h",
       ports := [22, 2222].filter
         (fun p => (open_ports_of ⟨"scanned", [(22, ⟨"open", "SSH", none⟩),
           (2222, ⟨"open", "Unknown (2222)", none⟩)]⟩).contains p),
       description := "Multiple SSH ports open", severity := "medium",
       confidence := 0.75 } : Finding) ∈ check_unusual_port_combinations
        [("h", ⟨"scanned", [(22, ⟨"open", "SSH", none⟩),
          (2222, ⟨"open", "Unknown (2222)", none⟩)]⟩)]
    ∧ check_unusual_port_combinations
        [("h", ⟨"scanned", [(22, ⟨"open", "SSH", none⟩),
          (2222, ⟨"open", "Unknown (2222)", none⟩)]⟩)] =
      [{ type := "unusual_port_combination", target := some "h",
         ports := [22, 2222], description := "Multiple SSH ports open",
         severity := "medium", confidence := 0.75 }]
    ∧ check_unusual_port_combinations
        [("h", ⟨"scanned", [(22, ⟨"open", "SSH", none⟩)]⟩)] = [] :=
  c8_unusual_port_combinations
    [("h", ⟨"scanned", [(22, ⟨"open", "SSH", none⟩),
      (2222, ⟨"open", "Unknown (2222)", none⟩)]⟩)]
    "h" ⟨"scanned", [(22, ⟨"open", "SSH", none⟩),
      (2222, ⟨"open", "Unknown (2222)", none⟩)]⟩
    ([22, 2222], "Multiple SSH ports open")
    (by decide) (by decide) (by decide)

/-! ### Claim C9 -/

theorem pattern_finding_ports {g : List Nat × List String} {f : Finding}
    (h : pattern_finding g = some f) : f.ports = g.1 ∧ f.targets = g.2 := by
  unfold pattern_finding at h
  split at h
  · cases h
    exact ⟨rfl, rfl⟩
  · cases h

theorem add_to_pattern_keys (acc : List (List Nat × List String))
    (pat : List Nat) (t : String) :
    (add_to_pattern acc pat t).map Prod.fst =
      if pat ∈ acc.map Prod.fst then acc.map Prod.fst
      else acc.map Prod.fst ++ [pat] := by
  induction acc with
  | nil => simp [add_to_pattern]
  | cons g rest ih =>
      by_cases h : g.1 = pat
      · simp [add_to_pattern, h]
      · have hne : pat ≠ g.1 := fun hh => h hh.symm
        by_cases h2 : pat ∈ rest.map Prod.fst
        · simp [add_to_pattern, h, ih, h2, hne]
        · simp [add_to_pattern, h, ih, h2, hne]

theorem port_patterns_keys_nodup (l : List (String × List Nat)) :
    ((port_patterns l).map Prod.fst).Nodup := by
  suffices h : ∀ (l : List (String × List Nat))
      (acc : List (List Nat × List String)), (acc.map Prod.fst).Nodup →
      (((l.foldl (fun acc x => add_to_pattern acc (sort_ports x.2) x.1) acc)).map
        Prod.fst).Nodup by
    exact h l [] (by simp)
  intro l
  induction l with
  | nil => intro acc hacc; simpa using hacc
  | cons x rest ih =>
      intro acc hacc
      refine ih _ ?_
      rw [add_to_pattern_keys]
      split
      · exact hacc
      · next hnot =>
          simp [List.nodup_append, hacc, hnot]

theorem add_to_pattern_member_len :
    ∀ (acc : List (List Nat × List String)) (k : Nat) (pat : List Nat)
      (t : String), (∀ y ∈ acc, (Prod.snd y).length ≤ k) →
      ∀ y ∈ add_to_pattern acc pat t, (Prod.snd y).length ≤ k + 1 := by
  intro acc
  induction acc with
  | nil =>
      intro k pat t h y hy
      simp [add_to_pattern] at hy
      subst hy
      simp
  | cons g rest ih =>
      intro k pat t h y hy
      by_cases hg : g.1 = pat
      · simp only [add_to_pattern, if_pos hg, List.mem_cons] at hy
        rcases hy with hy | hy
        · subst hy
          have := h g (by simp)
          simp only [List.length_append, List.length_cons, List.length_nil]
          omega
        · exact Nat.le_succ_of_le (h y (List.mem_cons_of_mem _ hy))
      · simp only [add_to_pattern, if_neg hg, List.mem_cons] at hy
        rcases hy with hy | hy
        · subst hy
          exact Nat.le_succ_of_le (h y (by simp))
        · exact ih k pat t (fun z hz => h z (List.mem_cons_of_mem _ hz)) y hy

theorem port_patterns_member_len (l : List (String × List Nat)) :
    ∀ y ∈ port_patterns l, (Prod.snd y).length ≤ l.length := by
  suffices h : ∀ (l : List (String × List Nat))
      (acc : List (List Nat × List String)) (k : Nat),
      (∀ y ∈ acc, (Prod.snd y).length ≤ k) →
      ∀ y ∈ l.foldl (fun acc x => add_to_pattern acc (sort_ports x.2) x.1) acc,
        (Prod.snd y).length ≤ k + l.length by
    intro y hy
    simpa using h l [] 0 (by simp) y hy
  intro l
  induction l with
  | nil =>
      intro acc k hacc y hy
      simpa using hacc y hy
  | cons x rest ih =>
      intro acc k hacc y hy
      have := ih (add_to_pattern acc (sort_ports x.2) x.1) (k + 1)
        (add_to_pattern_member_len _ _ _ _ hacc) y hy
      simp only [List.length_cons]
      omega

theorem countP_pattern_notmem {l : List (List Nat × List String)}
    {pat : List Nat} (h : pat ∉ l.map Prod.fst) :
    (l.filterMap pattern_finding).countP (fun f => f.ports == pat) = 0 := by
  induction l with
  | nil => simp
  | cons g rest ih =>
      have hg : g.1 ≠ pat := by
        intro hh
        subst hh
        exact h (by simp)
      have hrest : pat ∉ rest.map Prod.fst := fun hh => h (by simp [hh])
      rw [List.filterMap_cons]
      cases hf : pattern_finding g with
      | none => exact ih hrest
      | some f =>
          have hports := (pattern_finding_ports hf).1
          rw [List.countP_cons]
          have hb : (f.ports == pat) = false := by
            rw [hports]
            exact beq_eq_false_iff_ne.mpr hg
          rw [hb, ih hrest]
          simp

theorem countP_pattern_mem {l : List (List Nat × List String)}
    {pat : List Nat} {ts : List String}
    (hnd : (l.map Prod.fst).Nodup) (hm : (pat, ts) ∈ l)
    (h1 : 1 < ts.length) (h2 : 2 < pat.length) :
    (l.filterMap pattern_finding).countP (fun f => f.ports == pat) = 1 := by
  induction l with
  | nil => cases hm
  | cons g rest ih =>
      have hnd' : (rest.map Prod.fst).Nodup := (List.nodup_cons.mp (by simpa using hnd)).2
      have hgout : g.1 ∉ rest.map Prod.fst := (List.nodup_cons.mp (by simpa using hnd)).1
      rcases List.mem_cons.mp hm with hg | hg
      · subst hg
        have hf : pattern_finding (pat, ts) = some
            { type := "identical_port_pattern", targets := ts, ports := pat,
              description := "Multiple hosts (" ++ toString ts.length ++
                ") have identical open port patterns",
              severity := "low", confidence := 0.7 } := by
          unfold pattern_finding
          rw [if_pos ⟨h1, h2⟩]
        rw [List.filterMap_cons, hf, List.countP_cons]
        have hz : (rest.filterMap pattern_finding).countP
            (fun f => f.ports == pat) = 0 := countP_pattern_notmem hgout
        rw [hz]
        simp
      · have hgne : g.1 ≠ pat := by
          intro hh
          exact hgout (hh ▸ List.mem_map.mpr ⟨(pat, ts), hg, rfl⟩)
        rw [List.filterMap_cons]
        cases hf : pattern_finding g with
        | none => exact ih hnd' hg
        | some f =>
            have hports := (pattern_finding_ports hf).1
            rw [List.countP_cons]
            have hb : (f.ports == pat) = false := by
              rw [hports]
              exact beq_eq_false_iff_ne.mpr hgne
            rw [hb, ih hnd' hg]
            simp

/-- C9: rule 3 of the anomaly detector.  For every group of the port-
pattern map with more than one member target and a shared pattern longer
than 2, exactly one finding of type `identical_port_pattern` with
severity `low` and confidence 0.7 listing all member targets and the
shared pattern is emitted; three targets sharing (80, 443, 8080) yield
exactly one such finding listing all three, and two targets sharing
(80, 443) yield none. -/
theorem c9_identical_port_patterns (results : List (String × TargetEntry))
    (pat : List Nat) (ts : List String)
    (hg : (pat, ts) ∈ port_patterns (targets_with_open_ports results))
    (hts : 1 < ts.length) (hpat : 2 < pat.length) :
    ({ type := "identical_port_pattern", targets := ts, ports := pat,
       description := "Multiple hosts (" ++ toString ts.length ++
         ") have identical open port patterns",
       severity := "low", confidence := 0.7 } : Finding)
      ∈ check_unusual_network_patterns results
    ∧ (check_unusual_network_patterns results).countP
        (fun f => f.ports == pat) = 1
    ∧ check_unusual_network_patterns
        [("h1", ⟨"scanned", [(80, ⟨"open", "HTTP", none⟩), (443, ⟨"open", "HTTPS", none⟩), (8080, ⟨"open", "HTTP-Proxy", none⟩)]⟩),
         ("h2", ⟨"scanned", [(80, ⟨"open", "HTTP", none⟩), (443, ⟨"open", "HTTPS", none⟩), (8080, ⟨"open", "HTTP-Proxy", none⟩)]⟩),
         ("h3", ⟨"scanned", [(80, ⟨"open", "HTTP", none⟩), (443, ⟨"open", "HTTPS", none⟩), (8080, ⟨"open", "HTTP-Proxy", none⟩)]⟩)] =
      [{ type := "identical_port_pattern", targets := ["h1", "h2", "h3"],
         ports := [80, 443, 8080],
         description := "Multiple hosts (3) have identical open port patterns",
         severity := "low", confidence := 0.7 }]
    ∧ check_unusual_network_patterns
        [("h1", ⟨"scanned", [(80, ⟨"open", "HTTP", none⟩), (443, ⟨"open", "HTTPS", none⟩)]⟩),
         ("h2", ⟨"scanned", [(80, ⟨"open", "HTTP", none⟩), (443, ⟨"open", "HTTPS", none⟩)]⟩)] =
      [] := by
  have hlen : ts.length ≤ (targets_with_open_ports results).length :=
    port_patterns_member_len _ (pat, ts) hg
  have hguard : 1 < (targets_with_open_ports results).length :=
    lt_of_lt_of_le hts hlen
  have hrw : check_unusual_network_patterns results =
      (port_patterns (targets_with_open_ports results)).filterMap pattern_finding := by
    unfold check_unusual_network_patterns
    rw [if_pos hguard]
  refine ⟨?_, ?_, rfl, rfl⟩
  · rw [hrw]
    refine List.mem_filterMap.mpr ⟨(pat, ts), hg, ?_⟩
    unfold pattern_finding
    rw [if_pos ⟨hts, hpat⟩]
  · rw [hrw]
    exact countP_pattern_mem (port_patterns_keys_nodup _) hg hts hpat

/-- C9 witness: the rule fires on the concrete three-target results map
sharing the open-port pattern (80, 443, 8080). -/
theorem c9_witness :
    ({ type := "identical_port_pattern", targets := ["h1", "h2", "h3"],
       ports := [80, 443, 8080],
       description := "Multiple hosts (" ++ toString (["h1", "h2", "h3"] : List String).length ++
         ") have identical open port patterns",
       severity := "low", confidence := 0.7 } : Finding)
      ∈ check_unusual_network_patterns
        [("h1", ⟨"scanned", [(80, ⟨"open", "HTTP", none⟩), (443, ⟨"open", "HTTPS", none⟩), (8080, ⟨"open", "HTTP-Proxy", none⟩)]⟩),
         ("h2", ⟨"scanned", [(80, ⟨"open", "HTTP", none⟩), (443, ⟨"open", "HTTPS", none⟩), (8080, ⟨"open", "HTTP-Proxy", none⟩)]⟩),
         ("h3", ⟨"scanned", [(80, ⟨"open", "HTTP", none⟩), (443, ⟨"open", "HTTPS", none⟩), (8080, ⟨"open", "HTTP-Proxy", none⟩)]⟩)]
    ∧ (check_unusual_network_patterns
        [("h1", ⟨"scanned", [(80, ⟨"open", "HTTP", none⟩), (443, ⟨"open", "HTTPS", none⟩), (8080, ⟨"open", "HTTP-Proxy", none⟩)]⟩),
         ("h2", ⟨"scanned", [(80, ⟨"open", "HTTP", none⟩), (443, ⟨"open", "HTTPS", none⟩), (8080, ⟨"open", "HTTP-Proxy", none⟩)]⟩),
         ("h3", ⟨"scanned", [(80, ⟨"open", "HTTP", none⟩), (443, ⟨"open", "HTTPS", none⟩), (8080, ⟨"open", "HTTP-Proxy", none⟩)]⟩)]).countP
        (fun f => f.ports == [80, 443, 8080]) = 1
    ∧ check_unusual_network_patterns
        [("h1", ⟨"scanned", [(80, ⟨"open", "HTTP", none⟩), (443, ⟨"open", "HTTPS", none⟩), (8080, ⟨"open", "HTTP-Proxy", none⟩)]⟩),
         ("h2", ⟨"scanned", [(80, ⟨"open", "HTTP", none⟩), (443, ⟨"open", "HTTPS", none⟩), (8080, ⟨"open", "HTTP-Proxy", none⟩)]⟩),
         ("h3", ⟨"scanned", [(80, ⟨"open", "HTTP", none⟩), (443, ⟨"open", "HTTPS", none⟩), (8080, ⟨"open", "HTTP-Proxy", none⟩)]⟩)] =
      [{ type := "identical_port_pattern", targets := ["h1", "h2", "h3"],
         ports := [80, 443, 8080],
         description := "Multiple hosts (3) have identical open port patterns",
         severity := "low", confidence := 0.7 }]
    ∧ check_unusual_network_patterns
        [("h1", ⟨"scanned", [(80, ⟨"open", "HTTP", none⟩), (443, ⟨"open", "HTTPS", none⟩)]⟩),
         ("h2", ⟨"scanned", [(80, ⟨"open", "HTTP", none⟩), (443, ⟨"open", "HTTPS", none⟩)]⟩)] =
      [] :=
  c9_identical_port_patterns
    [("h1", ⟨"scanned", [(80, ⟨"open", "HTTP", none⟩), (443, ⟨"open", "HTTPS", none⟩), (8080, ⟨"open", "HTTP-Proxy", none⟩)]⟩),
     ("h2", ⟨"scanned", [(80, ⟨"open", "HTTP", none⟩), (443, ⟨"open", "HTTPS", none⟩), (8080, ⟨"open", "HTTP-Proxy", none⟩)]⟩),
     ("h3", ⟨"scanned", [(80, ⟨"open", "HTTP", none⟩), (443, ⟨"open", "HTTPS", none⟩), (8080, ⟨"open", "HTTP-Proxy", none⟩)]⟩)]
    [80, 443, 8080] ["h1", "h2", "h3"] (by decide) (by decide) (by decide)

/-! ### Claim C10 -/

/-- C10: the local-network test is a pure string-prefix check, so every
target whose string starts with `172.` is classified local and sent down
the ARP path; when its ARP probe gets no reply (and no exception) the
target is excluded from the live-host list no matter what a SYN probe
would have answered. -/
theorem c10_prefix_172_takes_arp_path (arp syn : String → DiscProbeResult)
    (targets : List String) (t : String)
    (hpre : starts_with t "172." = true) (harp : arp t = .noReply) :
    is_ip_in_local_network t = true ∧ t ∉ discover_hosts arp syn targets := by
  have hloc : is_ip_in_local_network t = true := by
    simp [is_ip_in_local_network, hpre]
  refine ⟨hloc, fun hmem => ?_⟩
  have hpred := (List.mem_filter.mp hmem).2
  simp [hloc, harp] at hpred

/-- C10 witness: `172.217.0.1` is a public address (outside
172.16.0.0/12), yet the prefix check classifies it local; with a silent
ARP segment it is dropped even though its SYN probe would reply. -/
theorem c10_witness :
    is_ip_in_local_network "172.217.0.1" = true
    ∧ "172.217.0.1" ∉ discover_hosts (fun _ => DiscProbeResult.noReply)
        (fun _ => DiscProbeResult.reply) ["172.217.0.1"] :=
  c10_prefix_172_takes_arp_path (fun _ => .noReply) (fun _ => .reply)
    ["172.217.0.1"] "172.217.0.1" (by decide) rfl

/-! ### Claim C5 -/

/-- C5: for every run whose results get stored (a completed scan), the
keys of the results mapping are exactly the live hosts returned by
discovery; every live target's entry maps every scheduled port to exactly
one `PortResult`; every stored status is one of open/closed/filtered/
error; and a probe that raised is recorded with status `error` and the
message, with no exception escaping (`scan_port` is total). -/
theorem c5_results_exactly_live_ports (env : ExecEnv) (scan_id : String)
    (targets : List String) (ports : List Nat) (r : ScanResults)
    (hnd : ports.Nodup)
    (hr : (execute_scan env scan_id targets ports).finalStored = some r) :
    r.results.map Prod.fst = discover_hosts env.arp env.syn targets
    ∧ (∀ t td, (t, td) ∈ r.results →
        t ∈ discover_hosts env.arp env.syn targets ∧ td.ports.map Prod.fst = ports)
    ∧ (∀ t td p pr, (t, td) ∈ r.results → (p, pr) ∈ td.ports →
        pr = scan_port (env.probe t p) p
        ∧ pr.status ∈ (["open", "closed", "filtered", "error"] : List String))
    ∧ (∀ t td p, (t, td) ∈ r.results → p ∈ ports →
        (td.ports.countP fun x => x.1 == p) = 1)
    ∧ (∀ t td p pr msg, (t, td) ∈ r.results → (p, pr) ∈ td.ports →
        env.probe t p = .exn msg →
        pr.status = "error" ∧ pr.error = some msg) := by
  have hres : r.results = results_map env (discover_hosts env.arp env.syn targets) ports := by
    cases hd : env.discovery_exn with
    | some m =>
        simp only [execute_scan, hd] at hr
        exact Option.noConfusion hr
    | none =>
        cases hdet : env.detect_exn with
        | some m =>
            simp only [execute_scan, hd, hdet] at hr
            exact Option.noConfusion hr
        | none =>
            cases hsave : env.save_exn with
            | some m =>
                simp only [execute_scan, hd, hdet, hsave] at hr
                rw [← Option.some.inj hr]
            | none =>
                simp only [execute_scan, hd, hdet, hsave] at hr
                rw [← Option.some.inj hr]
  have key : ∀ t td, (t, td) ∈ r.results →
      t ∈ discover_hosts env.arp env.syn targets ∧ td = target_entry env t ports := by
    intro t td h
    rw [hres] at h
    unfold results_map at h
    obtain ⟨t', ht', heq⟩ := List.mem_map.mp h
    injection heq with h1 h2
    subst h1
    subst h2
    exact ⟨ht', rfl⟩
  have key2 : ∀ t p pr, (p, pr) ∈ (target_entry env t ports).ports →
      p ∈ ports ∧ pr = scan_port (env.probe t p) p := by
    intro t p pr h
    simp only [target_entry] at h
    obtain ⟨q, hq, heq⟩ := List.mem_map.mp h
    injection heq with h1 h2
    subst h1
    subst h2
    exact ⟨hq, rfl⟩
  refine ⟨?_, ?_, ?_, ?_, ?_⟩
  · rw [hres]
    unfold results_map
    rw [List.map_map]
    exact List.map_id _
  · intro t td h
    obtain ⟨h1, h2⟩ := key t td h
    refine ⟨h1, ?_⟩
    rw [h2]
    simp only [target_entry]
    rw [List.map_map]
    exact List.map_id _
  · intro t td p pr h hp
    obtain ⟨-, h2⟩ := key t td h
    rw [h2] at hp
    obtain ⟨-, hpr⟩ := key2 t p pr hp
    exact ⟨hpr, hpr ▸ scan_port_status_mem _ _⟩
  · intro t td p h hp
    obtain ⟨-, h2⟩ := key t td h
    rw [h2]
    simp only [target_entry]
    rw [List.countP_map]
    have hc : (ports.countP
        ((fun x => x.1 == p) ∘ fun q => (q, scan_port (env.probe t q) q))) =
        ports.count p := rfl
    rw [hc]
    exact List.count_eq_one_of_mem hnd hp
  · intro t td p pr msg h hp hprobe
    obtain ⟨-, h2⟩ := key t td h
    rw [h2] at hp
    obtain ⟨-, hpr⟩ := key2 t p pr hp
    rw [hpr, hprobe]
    exact ⟨rfl, rfl⟩

/-- Environment for the C5 witness: two live public targets, with the
probe of (1.2.3.4, 80) raising and every other probe answering SYN+ACK. -/
def c5_env : ExecEnv :=
  { arp := fun _ => .noReply, syn := fun _ => .reply,
    probe := fun t p =>
      if t = "1.2.3.4" ∧ p = 80 then .exn "socket error" else .replyTCP 0x12 }

/-- The results record the C5 witness scan stores. -/
def c5_r : ScanResults :=
  { scan_id := "s", targets := ["1.2.3.4", "9.9.9.9"], ports := [22, 80],
    results :=
      [("1.2.3.4", ⟨"scanned", [(22, ⟨"open", "SSH", none⟩),
        (80, ⟨"error", "HTTP", some "socket error"⟩)]⟩),
       ("9.9.9.9", ⟨"scanned", [(22, ⟨"open", "SSH", none⟩),
        (80, ⟨"open", "HTTP", none⟩)]⟩)],
    anomalies := [] }

/-- C5 witness: the theorem applied to a concrete two-target scan in
which one probe raises. -/
theorem c5_witness :
    c5_r.results.map Prod.fst = discover_hosts c5_env.arp c5_env.syn ["1.2.3.4", "9.9.9.9"]
    ∧ (∀ t td, (t, td) ∈ c5_r.results →
        t ∈ discover_hosts c5_env.arp c5_env.syn ["1.2.3.4", "9.9.9.9"]
        ∧ td.ports.map Prod.fst = [22, 80])
    ∧ (∀ t td p pr, (t, td) ∈ c5_r.results → (p, pr) ∈ td.ports →
        pr = scan_port (c5_env.probe t p) p
        ∧ pr.status ∈ (["open", "closed", "filtered", "error"] : List String))
    ∧ (∀ t td p, (t, td) ∈ c5_r.results → p ∈ ([22, 80] : List Nat) →
        (td.ports.countP fun x => x.1 == p) = 1)
    ∧ (∀ t td p pr msg, (t, td) ∈ c5_r.results → (p, pr) ∈ td.ports →
        c5_env.probe t p = .exn msg →
        pr.status = "error" ∧ pr.error = some msg) :=
  c5_results_exactly_live_ports c5_env "s" ["1.2.3.4", "9.9.9.9"] [22, 80] c5_r
    (by decide) rfl

/-! ### Claim C4 -/

/-- C4 (counterexample to the claim as stated): immediately after
`start_scan`, the scan id is known and the scan is `running`; yet while
`get_scan_status` returns the running record, `get_scan_results` returns
the not-found value `None` rather than the partial snapshot the claim
describes — results are only stored on completion. -/
theorem c4_counterexample :
    get_scan_status (start_scan {} "s1") "s1" =
      some (.active { status := "running", progress := 0 })
    ∧ get_scan_results (start_scan {} "s1") "s1" = none :=
  ⟨rfl, rfl⟩

/-- C4 (amended): both queries are side-effect-free reads (they are pure
functions of the registry state); `get_scan_status` returns the live
record whenever the id is in `active_scans`; `get_scan_results` returns
the not-found value whenever nothing was stored for the id — which covers
running and failed scans as well as unknown ids; and a fully unknown id
yields the not-found value from both, with no exception. -/
theorem c4_query_reads (st : ScannerState) (scan_id : String) :
    (∀ a, alist_lookup st.active_scans scan_id = some a →
        get_scan_status st scan_id = some (.active a))
    ∧ (alist_lookup st.scan_results scan_id = none →
        alist_lookup st.saved_files scan_id = none →
        get_scan_results st scan_id = none)
    ∧ (alist_lookup st.active_scans scan_id = none →
        alist_lookup st.scan_results scan_id = none →
        alist_lookup st.saved_files scan_id = none →
        get_scan_status st scan_id = none ∧ get_scan_results st scan_id = none) := by
  refine ⟨?_, ?_, ?_⟩
  · intro a ha
    simp [get_scan_status, ha]
  · intro h1 h2
    simp [get_scan_results, h1, h2]
  · intro h0 h1 h2
    constructor
    · simp [get_scan_status, h0, h1, h2]
    · simp [get_scan_results, h1, h2]

/-- C4 witness: the amended read contract instantiated on the registry
state right after starting scan `s1`. -/
theorem c4_witness :
    (∀ a, alist_lookup (start_scan {} "s1").active_scans "s1" = some a →
        get_scan_status (start_scan {} "s1") "s1" = some (.active a))
    ∧ (alist_lookup (start_scan {} "s1").scan_results "s1" = none →
        alist_lookup (start_scan {} "s1").saved_files "s1" = none →
        get_scan_results (start_scan {} "s1") "s1" = none)
    ∧ (alist_lookup (start_scan {} "s1").active_scans "s1" = none →
        alist_lookup (start_scan {} "s1").scan_results "s1" = none →
        alist_lookup (start_scan {} "s1").saved_files "s1" = none →
        get_scan_status (start_scan {} "s1") "s1" = none
        ∧ get_scan_results (start_scan {} "s1") "s1" = none) :=
  c4_query_reads (start_scan {} "s1") "s1"

/-! ### Claim C3 -/

theorem alist_lookup_insert {α : Type} (l : List (String × α)) (k : String)
    (v : α) : alist_lookup (alist_insert l k v) k = some v := by
  induction l with
  | nil => simp [alist_insert, alist_lookup]
  | cons x rest ih =>
      by_cases h : x.1 = k
      · simp [alist_insert, alist_lookup, h]
      · simp [alist_insert, alist_lookup, h, ih]

/-- Environment for the C3 counterexample: discovery and the probe
succeed, but `_detect_anomalies` raises. -/
def c3_env : ExecEnv :=
  { arp := fun _ => .noReply, syn := fun _ => .reply,
    probe := fun _ _ => .replyTCP 0x12, detect_exn := some "detector crashed" }

/-- C3 (counterexample to the claim as stated): an orchestration-level
failure after all probes finished (anomaly detection raising) marks the
scan `error` with the message — but the per-target results that had been
collected (the third conjunct shows the local results dict was nonempty)
are *not* readable through `get_scan_results`, which returns the
not-found value: the local results dict is stored only on success. -/
theorem c3_counterexample :
    (alist_lookup (run_scan c3_env (start_scan {} "s1") "s1" ["1.2.3.4"] [80]).active_scans
        "s1").map (fun a => (a.status, a.error)) = some ("error", some "detector crashed")
    ∧ get_scan_results (run_scan c3_env (start_scan {} "s1") "s1" ["1.2.3.4"] [80]) "s1" = none
    ∧ results_map c3_env ["1.2.3.4"] [80] =
        [("1.2.3.4", ⟨"scanned", [(80, ⟨"open", "HTTP", none⟩)]⟩)] :=
  ⟨rfl, rfl, rfl⟩

/-- C3 (amended): on an orchestration-level failure before the results
are stored (discovery crashing entirely, or any failure through anomaly
detection), the scan record's status becomes `error` with the message
attached, but the partial results are discarded: `get_scan_results`
returns the not-found value for such a scan. -/
theorem c3_error_status_results_dropped (env : ExecEnv) (st : ScannerState)
    (scan_id : String) (targets : List String) (ports : List Nat) (msg : String)
    (hcrash : env.discovery_exn = some msg ∨
      (env.discovery_exn = none ∧ env.detect_exn = some msg))
    (hres : alist_lookup st.scan_results scan_id = none)
    (hsav : alist_lookup st.saved_files scan_id = none) :
    (alist_lookup (run_scan env st scan_id targets ports).active_scans scan_id).map
        (fun a => (a.status, a.error)) = some ("error", some msg)
    ∧ get_scan_results (run_scan env st scan_id targets ports) scan_id = none := by
  rcases hcrash with hd | ⟨hd, hdet⟩
  · constructor
    · simp [run_scan, execute_scan, hd, alist_lookup_insert]
    · simp [run_scan, execute_scan, hd, get_scan_results, hres, hsav]
  · constructor
    · simp [run_scan, execute_scan, hd, hdet, alist_lookup_insert]
    · simp [run_scan, execute_scan, hd, hdet, get_scan_results, hres, hsav]

/-- C3 witness: the amended behaviour on the concrete detector-crash
scenario. -/
theorem c3_witness :
    (alist_lookup (run_scan c3_env (start_scan {} "s1") "s1" ["1.2.3.4"] [80]).active_scans
        "s1").map (fun a => (a.status, a.error)) = some ("error", some "detector crashed")
    ∧ get_scan_results (run_scan c3_env (start_scan {} "s1") "s1" ["1.2.3.4"] [80]) "s1" = none :=
  c3_error_status_results_dropped c3_env (start_scan {} "s1") "s1" ["1.2.3.4"] [80]
    "detector crashed" (Or.inr ⟨rfl, rfl⟩) rfl rfl

/-! ### Progress and trace lemmas -/

theorem progress_value_nonneg (c total : Nat) : 0 ≤ progress_value c total := by
  unfold progress_value
  positivity

theorem progress_value_mono {c d : Nat} (total : Nat) (h : c ≤ d) :
    progress_value c total ≤ progress_value d total := by
  unfold progress_value
  rcases Nat.eq_zero_or_pos total with ht | ht
  · subst ht
    simp
  · have ht' : (0 : ℚ) < total := by exact_mod_cast ht
    exact mul_le_mul_of_nonneg_right
      ((div_le_div_iff_of_pos_right ht').mpr (by exact_mod_cast h)) (by norm_num)

theorem progress_value_le_100 {c total : Nat} (h : c ≤ total) :
    progress_value c total ≤ 100 := by
  unfold progress_value
  rcases Nat.eq_zero_or_pos total with ht | ht
  · subst ht
    have hc : c = 0 := Nat.le_zero.mp h
    subst hc
    simp
  · have ht' : (0 : ℚ) < total := by exact_mod_cast ht
    have h1 : (c : ℚ) / total ≤ 1 := (div_le_one ht').mpr (by exact_mod_cast h)
    calc (c : ℚ) / total * 100 ≤ 1 * 100 :=
          mul_le_mul_of_nonneg_right h1 (by norm_num)
      _ = 100 := by norm_num

theorem last_progress_nonneg (n total : Nat) : 0 ≤ last_progress n total := by
  unfold last_progress
  split
  · exact le_refl 0
  · exact progress_value_nonneg _ _

theorem last_progress_le_100 {n total : Nat} (h : n ≤ total) :
    last_progress n total ≤ 100 := by
  unfold last_progress
  split
  · norm_num
  · exact progress_value_le_100 h

theorem mem_progress_trace {n total : Nat} {x : String × ℚ}
    (h : x ∈ progress_trace n total) :
    x.1 = "running" ∧ ∃ k, k < n ∧ x.2 = progress_value (k + 1) total := by
  unfold progress_trace at h
  obtain ⟨k, hk, rfl⟩ := List.mem_map.mp h
  exact ⟨rfl, k, List.mem_range.mp hk, rfl⟩

theorem mem_progress_trace_le_last {n total : Nat} {x : String × ℚ}
    (h : x ∈ progress_trace n total) : x.2 ≤ last_progress n total := by
  obtain ⟨-, k, hk, hv⟩ := mem_progress_trace h
  rw [hv]
  unfold last_progress
  rw [if_neg (by omega)]
  exact progress_value_mono total (by omega)

theorem progress_trace_pairwise (n total : Nat) :
    (progress_trace n total).Pairwise fun a b => a.2 ≤ b.2 := by
  unfold progress_trace
  refine List.pairwise_map.mpr ?_
  refine (List.pairwise_lt_range n).imp ?_
  intro a b hab
  exact progress_value_mono total (by omega)

theorem progress_trace_length (n total : Nat) :
    (progress_trace n total).length = n := by
  simp [progress_trace]

theorem progress_trace_getElem {k n : Nat} (total : Nat) (hk : k < n) :
    (progress_trace n total)[k]? = some ("running", progress_value (k + 1) total) := by
  simp [progress_trace, List.getElem?_map, List.getElem?_range hk]

theorem tasks_le_total (env : ExecEnv) (targets : List String) (ports : List Nat) :
    (scan_tasks (discover_hosts env.arp env.syn targets) ports).length ≤
      targets.length * ports.length := by
  rw [scan_tasks_length]
  exact Nat.mul_le_mul_right _ (List.length_filter_le _ _)

/-- Rank of a scan status used to state that the lifecycle never moves
backwards: `running` before the terminal states, and an `error` overwrite
can only follow `completed`, never the other way round. -/
def status_rank (s : String) : Nat :=
  if s = "running" then 0 else if s = "completed" then 1 else 2

theorem pairwise_two {α : Type} (R : α → α → Prop) (a b : α) (h : R a b) :
    ([a, b]).Pairwise R := by
  refine List.pairwise_cons.mpr ⟨?_, List.pairwise_singleton R b⟩
  intro y hy
  rw [List.mem_singleton.mp hy]
  exact h

theorem pairwise_three {α : Type} (R : α → α → Prop) (a b c : α)
    (hab : R a b) (hac : R a c) (hbc : R b c) : ([a, b, c]).Pairwise R := by
  refine List.pairwise_cons.mpr ⟨?_, pairwise_two R b c hbc⟩
  intro y hy
  rcases List.mem_cons.mp hy with rfl | hy'
  · exact hab
  · rw [List.mem_singleton.mp hy']
    exact hac

/-- Bounds and monotonicity of a full execution trace, generic in the
terminal tail. -/
theorem trace_facts (n total : Nat) (hn : n ≤ total) (tail : List (String × ℚ))
    (hmem : ∀ y ∈ tail, last_progress n total ≤ y.2 ∧ y.2 ≤ 100 ∧ 1 ≤ status_rank y.1)
    (hpw1 : tail.Pairwise fun a b => a.2 ≤ b.2)
    (hpw2 : tail.Pairwise fun a b => status_rank a.1 ≤ status_rank b.1) :
    (∀ x ∈ ("running", (0 : ℚ)) :: progress_trace n total ++ tail, 0 ≤ x.2 ∧ x.2 ≤ 100)
    ∧ (("running", (0 : ℚ)) :: progress_trace n total ++ tail).Pairwise
        (fun a b => a.2 ≤ b.2)
    ∧ (("running", (0 : ℚ)) :: progress_trace n total ++ tail).Pairwise
        (fun a b => status_rank a.1 ≤ status_rank b.1) := by
  have hk1 : ∀ x ∈ progress_trace n total, 0 ≤ x.2 ∧ x.2 ≤ 100 := by
    intro x hx
    obtain ⟨-, k, hk, hv⟩ := mem_progress_trace hx
    rw [hv]
    exact ⟨progress_value_nonneg _ _, progress_value_le_100 (by omega)⟩
  have hrank0 : ∀ x ∈ progress_trace n total, status_rank x.1 = 0 := by
    intro x hx
    rw [(mem_progress_trace hx).1]
    rfl
  refine ⟨?_, ?_, ?_⟩
  · intro x hx
    rcases List.mem_cons.mp hx with rfl | hx'
    · exact ⟨le_refl 0, by norm_num⟩
    rcases List.mem_append.mp hx' with hx1 | hx2
    · exact hk1 x hx1
    · obtain ⟨hy1, hy2, -⟩ := hmem x hx2
      exact ⟨le_trans (last_progress_nonneg n total) hy1, hy2⟩
  · refine List.pairwise_cons.mpr ⟨?_, ?_⟩
    · intro y hy
      rcases List.mem_append.mp hy with h1 | h2
      · exact (hk1 y h1).1
      · exact le_trans (last_progress_nonneg n total) (hmem y h2).1
    · refine List.pairwise_append.mpr ⟨progress_trace_pairwise n total, hpw1, ?_⟩
      intro x hx y hy
      exact le_trans (mem_progress_trace_le_last hx) (hmem y hy).1
  · refine List.pairwise_cons.mpr ⟨?_, ?_⟩
    · intro y hy
      show status_rank "running" ≤ status_rank y.1
      have h0 : status_rank "running" = 0 := rfl
      rw [h0]
      exact Nat.zero_le _
    · refine List.pairwise_append.mpr ⟨?_, hpw2, ?_⟩
      · refine List.pairwise_of_forall_mem_list ?_
        intro a ha b hb
        rw [hrank0 a ha]
        exact Nat.zero_le _
      · intro x hx y hy
        rw [hrank0 x hx]
        exact Nat.zero_le _

/-- Shape of the execution trace when discovery does not crash: the
initial running record, one progress update per completed task, then a
terminal tail. -/
theorem execute_scan_trace_shape (env : ExecEnv) (scan_id : String)
    (targets : List String) (ports : List Nat) (hd : env.discovery_exn = none) :
    ∃ tail, (execute_scan env scan_id targets ports).trace =
      ("running", 0) ::
        progress_trace (scan_tasks (discover_hosts env.arp env.syn targets) ports).length
          (targets.length * ports.length) ++ tail := by
  cases hdet : env.detect_exn with
  | some m =>
      refine ⟨[("error", last_progress
        (scan_tasks (discover_hosts env.arp env.syn targets) ports).length
        (targets.length * ports.length))], ?_⟩
      simp only [execute_scan, hd, hdet]
  | none =>
      cases hsave : env.save_exn with
      | some m =>
          refine ⟨[("completed", last_progress
              (scan_tasks (discover_hosts env.arp env.syn targets) ports).length
              (targets.length * ports.length)), ("completed", 100), ("error", 100)], ?_⟩
          simp only [execute_scan, hd, hdet, hsave]
      | none =>
          refine ⟨[("completed", last_progress
              (scan_tasks (discover_hosts env.arp env.syn targets) ports).length
              (targets.length * ports.length)), ("completed", 100)], ?_⟩
          simp only [execute_scan, hd, hdet, hsave]

/-! ### Claim C2 -/

/-- Environment for the C2 counterexample: target 1.2.3.4 answers the
discovery SYN probe, 5.6.7.8 does not; every port probe answers
SYN+ACK. -/
def c2_env : ExecEnv :=
  { arp := fun _ => .noReply,
    syn := fun t => if t = "1.2.3.4" then .reply else .noReply,
    probe := fun _ _ => .replyTCP 0x12 }

/-- C2 (counterexample to the claim as stated): with two requested
targets of which one is live and one port, the live-host denominator
would be `1 * 1 = 1`, so the claimed recomputation after the single task
is `100 * 1/1 = 100`; the code instead computes
`total_tasks = len(targets) * len(ports) = 2` *before* discovery and
writes progress `100 * 1/2 = 50`. -/
theorem c2_counterexample :
    discover_hosts c2_env.arp c2_env.syn ["1.2.3.4", "5.6.7.8"] = ["1.2.3.4"]
    ∧ (execute_scan c2_env "s" ["1.2.3.4", "5.6.7.8"] [80]).trace =
        [("running", 0), ("running", progress_value 1 2),
         ("completed", progress_value 1 2), ("completed", 100)]
    ∧ progress_value 1 2 = 50
    ∧ progress_value 1 (1 * 1) = 100
    ∧ (50 : ℚ) ≠ 100 :=
  ⟨rfl, rfl, by norm_num [progress_value], by norm_num [progress_value], by norm_num⟩

/-- C2 (amended): the total-task denominator is
`len(targets) * len(ports)`, fixed before discovery; after the `k+1`-st
task completion the progress is recomputed as `100 * (k+1)/total`; when
the total is zero no task is ever scheduled, so the division is never
evaluated, and a crash-free run still ends `completed` with progress
forced to 100. -/
theorem c2_progress_denominator (env : ExecEnv) (scan_id : String)
    (targets : List String) (ports : List Nat) (hd : env.discovery_exn = none) :
    (∀ k, k < (scan_tasks (discover_hosts env.arp env.syn targets) ports).length →
      (execute_scan env scan_id targets ports).trace[k + 1]? =
        some ("running", progress_value (k + 1) (targets.length * ports.length)))
    ∧ (targets.length * ports.length = 0 →
        (scan_tasks (discover_hosts env.arp env.syn targets) ports).length = 0)
    ∧ (env.detect_exn = none → env.save_exn = none →
        (execute_scan env scan_id targets ports).finalActive.status = "completed"
        ∧ (execute_scan env scan_id targets ports).finalActive.progress = 100) := by
  obtain ⟨tail, htr⟩ := execute_scan_trace_shape env scan_id targets ports hd
  refine ⟨?_, ?_, ?_⟩
  · intro k hk
    rw [htr]
    simp only [List.cons_append]
    rw [List.getElem?_cons_succ,
      List.getElem?_append_left (by rwa [progress_trace_length]),
      progress_trace_getElem _ hk]
  · intro h0
    rw [scan_tasks_length]
    have hle : (discover_hosts env.arp env.syn targets).length ≤ targets.length :=
      List.length_filter_le _ _
    rcases Nat.mul_eq_zero.mp h0 with h | h
    · have : (discover_hosts env.arp env.syn targets).length = 0 := by omega
      rw [this, Nat.zero_mul]
    · rw [h, Nat.mul_zero]
  · intro hdet hsave
    constructor
    · simp only [execute_scan, hd, hdet, hsave]
    · simp only [execute_scan, hd, hdet, hsave]

/-- C2 witness: the amended progress formula instantiated on the
concrete half-live scan. -/
theorem c2_witness :
    (∀ k, k < (scan_tasks (discover_hosts c2_env.arp c2_env.syn ["1.2.3.4", "5.6.7.8"]) [80]).length →
      (execute_scan c2_env "s" ["1.2.3.4", "5.6.7.8"] [80]).trace[k + 1]? =
        some ("running", progress_value (k + 1)
          ((["1.2.3.4", "5.6.7.8"] : List String).length * ([80] : List Nat).length)))
    ∧ ((["1.2.3.4", "5.6.7.8"] : List String).length * ([80] : List Nat).length = 0 →
        (scan_tasks (discover_hosts c2_env.arp c2_env.syn ["1.2.3.4", "5.6.7.8"]) [80]).length = 0)
    ∧ (c2_env.detect_exn = none → c2_env.save_exn = none →
        (execute_scan c2_env "s" ["1.2.3.4", "5.6.7.8"] [80]).finalActive.status = "completed"
        ∧ (execute_scan c2_env "s" ["1.2.3.4", "5.6.7.8"] [80]).finalActive.progress = 100) :=
  c2_progress_denominator c2_env "s" ["1.2.3.4", "5.6.7.8"] [80] rfl

/-! ### Claim C6 -/

/-- Environment for the C6 counterexample: a fully successful one-port
scan whose final `_save_results` call raises (e.g. the results directory
is not writable). -/
def c6_env : ExecEnv :=
  { arp := fun _ => .noReply, syn := fun _ => .reply,
    probe := fun _ _ => .replyTCP 0x12, save_exn := some "disk full" }

/-- C6 (counterexample to the claim as stated): when `_save_results`
raises after the scan was already marked `completed` with progress 100,
the `except` clause overwrites the status with `error`: the record makes
a second transition `completed → error` (reverting from a terminal
state), and it ends with progress 100 while the status is *not*
`Completed` — refuting both the single-transition clause and the
`progress = 100 ↔ Completed` clause. -/
theorem c6_counterexample :
    (execute_scan c6_env "s" ["1.2.3.4"] [80]).trace =
      [("running", 0), ("running", progress_value 1 1),
       ("completed", progress_value 1 1), ("completed", 100), ("error", 100)]
    ∧ (execute_scan c6_env "s" ["1.2.3.4"] [80]).finalActive.status = "error"
    ∧ (execute_scan c6_env "s" ["1.2.3.4"] [80]).finalActive.progress = 100 :=
  ⟨rfl, rfl, rfl⟩

/-- C6 (amended): every execution trace starts at `(running, 0)`; all
progress values stay within [0, 100] and are non-decreasing along the
trace; the status only moves forward in the order
running → completed → error (in particular it never returns to running,
and `completed` can only be followed by the error overwrite of a failed
save, never the reverse); a crash-free run ends `(completed, 100)`; the
final status `completed` always comes with final progress 100; and as
long as no failure occurs after the futures loop (no detect or save
crash), the final progress is 100 exactly when the final status is
`completed`. -/
theorem c6_lifecycle (env : ExecEnv) (scan_id : String)
    (targets : List String) (ports : List Nat) :
    (execute_scan env scan_id targets ports).trace.head? = some ("running", 0)
    ∧ (∀ x ∈ (execute_scan env scan_id targets ports).trace, 0 ≤ x.2 ∧ x.2 ≤ 100)
    ∧ (execute_scan env scan_id targets ports).trace.Pairwise (fun a b => a.2 ≤ b.2)
    ∧ (execute_scan env scan_id targets ports).trace.Pairwise
        (fun a b => status_rank a.1 ≤ status_rank b.1)
    ∧ ((execute_scan env scan_id targets ports).finalActive.status = "completed" →
        (execute_scan env scan_id targets ports).finalActive.progress = 100)
    ∧ (env.discovery_exn = none → env.detect_exn = none → env.save_exn = none →
        (execute_scan env scan_id targets ports).finalActive.status = "completed"
        ∧ (execute_scan env scan_id targets ports).finalActive.progress = 100)
    ∧ (env.detect_exn = none → env.save_exn = none →
        ((execute_scan env scan_id targets ports).finalActive.progress = 100 ↔
          (execute_scan env scan_id targets ports).finalActive.status = "completed")) := by
  have hn := tasks_le_total env targets ports
  cases hd : env.discovery_exn with
  | some m =>
      have htr : (execute_scan env scan_id targets ports).trace =
          [("running", 0), ("error", 0)] := by
        simp only [execute_scan, hd]
      have hfa : (execute_scan env scan_id targets ports).finalActive =
          { status := "error", progress := 0, error := some m } := by
        simp only [execute_scan, hd]
      refine ⟨?_, ?_, ?_, ?_, ?_, ?_, ?_⟩
      · rw [htr]
        rfl
      · rw [htr]
        intro x hx
        rcases List.mem_cons.mp hx with rfl | hx'
        · exact ⟨le_refl 0, by norm_num⟩
        · rw [List.mem_singleton.mp hx']
          exact ⟨le_refl 0, by norm_num⟩
      · rw [htr]
        exact pairwise_two _ _ _ (le_refl 0)
      · rw [htr]
        exact pairwise_two _ _ _ (by decide)
      · rw [hfa]
        intro h
        exact absurd h (by decide : ¬("error" = "completed"))
      · intro h1 h2 h3
        exact Option.noConfusion h1
      · intro h1 h2
        rw [hfa]
        constructor
        · intro h
          exact absurd h (by norm_num : ¬((0 : ℚ) = 100))
        · intro h
          exact absurd h (by decide : ¬("error" = "completed"))
  | none =>
      cases hdet : env.detect_exn with
      | some m =>
          have htr : (execute_scan env scan_id targets ports).trace =
              ("running", 0) :: progress_trace
                (scan_tasks (discover_hosts env.arp env.syn targets) ports).length
                (targets.length * ports.length) ++
              [("error", last_progress
                (scan_tasks (discover_hosts env.arp env.syn targets) ports).length
                (targets.length * ports.length))] := by
            simp only [execute_scan, hd, hdet]
          have hfa : (execute_scan env scan_id targets ports).finalActive =
              { status := "error", progress := last_progress
                  (scan_tasks (discover_hosts env.arp env.syn targets) ports).length
                  (targets.length * ports.length), error := some m } := by
            simp only [execute_scan, hd, hdet]
          have hfacts := trace_facts _ _ hn
            [("error", last_progress
              (scan_tasks (discover_hosts env.arp env.syn targets) ports).length
              (targets.length * ports.length))]
            (by
              intro y hy
              rw [List.mem_singleton.mp hy]
              exact ⟨le_refl _, last_progress_le_100 hn,
                (by decide : (1 : ℕ) ≤ status_rank "error")⟩)
            (List.pairwise_singleton _ _) (List.pairwise_singleton _ _)
          refine ⟨?_, ?_, ?_, ?_, ?_, ?_, ?_⟩
          · rw [htr]
            rfl
          · rw [htr]
            exact hfacts.1
          · rw [htr]
            exact hfacts.2.1
          · rw [htr]
            exact hfacts.2.2
          · rw [hfa]
            intro h
            exact absurd h (by decide : ¬("error" = "completed"))
          · intro h1 h2 h3
            exact Option.noConfusion h2
          · intro h1 h2
            exact Option.noConfusion h1
      | none =>
          cases hsave : env.save_exn with
          | some m =>
              have h100 : last_progress
                  (scan_tasks (discover_hosts env.arp env.syn targets) ports).length
                  (targets.length * ports.length) ≤ 100 := last_progress_le_100 hn
              have htr : (execute_scan env scan_id targets ports).trace =
                  ("running", 0) :: progress_trace
                    (scan_tasks (discover_hosts env.arp env.syn targets) ports).length
                    (targets.length * ports.length) ++
                  [("completed", last_progress
                      (scan_tasks (discover_hosts env.arp env.syn targets) ports).length
                      (targets.length * ports.length)),
                   ("completed", 100), ("error", 100)] := by
                simp only [execute_scan, hd, hdet, hsave]
              have hfa : (execute_scan env scan_id targets ports).finalActive =
                  { status := "error", progress := 100, error := some m } := by
                simp only [execute_scan, hd, hdet, hsave]
              have hfacts := trace_facts _ _ hn
                [("completed", last_progress
                    (scan_tasks (discover_hosts env.arp env.syn targets) ports).length
                    (targets.length * ports.length)), ("completed", 100), ("error", 100)]
                (by
                  intro y hy
                  rcases List.mem_cons.mp hy with rfl | hy'
                  · exact ⟨le_refl _, h100,
                      (by decide : (1 : ℕ) ≤ status_rank "completed")⟩
                  rcases List.mem_cons.mp hy' with rfl | hy''
                  · exact ⟨h100, by norm_num,
                      (by decide : (1 : ℕ) ≤ status_rank "completed")⟩
                  · rw [List.mem_singleton.mp hy'']
                    exact ⟨h100, by norm_num,
                      (by decide : (1 : ℕ) ≤ status_rank "error")⟩)
                (pairwise_three _ _ _ _ h100 h100 (by norm_num))
                (pairwise_three _ _ _ _
                  (by decide : status_rank "completed" ≤ status_rank "completed")
                  (by decide : status_rank "completed" ≤ status_rank "error")
                  (by decide : status_rank "completed" ≤ status_rank "error"))
              refine ⟨?_, ?_, ?_, ?_, ?_, ?_, ?_⟩
              · rw [htr]
                rfl
              · rw [htr]
                exact hfacts.1
              · rw [htr]
                exact hfacts.2.1
              · rw [htr]
                exact hfacts.2.2
              · rw [hfa]
                intro h
                exact absurd h (by decide : ¬("error" = "completed"))
              · intro h1 h2 h3
                exact Option.noConfusion h3
              · intro h1 h2
                exact Option.noConfusion h2
          | none =>
              have h100 : last_progress
                  (scan_tasks (discover_hosts env.arp env.syn targets) ports).length
                  (targets.length * ports.length) ≤ 100 := last_progress_le_100 hn
              have htr : (execute_scan env scan_id targets ports).trace =
                  ("running", 0) :: progress_trace
                    (scan_tasks (discover_hosts env.arp env.syn targets) ports).length
                    (targets.length * ports.length) ++
                  [("completed", last_progress
                      (scan_tasks (discover_hosts env.arp env.syn targets) ports).length
                      (targets.length * ports.length)),
                   ("completed", 100)] := by
                simp only [execute_scan, hd, hdet, hsave]
              have hfa : (execute_scan env scan_id targets ports).finalActive =
                  { status := "completed", progress := 100 } := by
                simp only [execute_scan, hd, hdet, hsave]
              have hfacts := trace_facts _ _ hn
                [("completed", last_progress
                    (scan_tasks (discover_hosts env.arp env.syn targets) ports).length
                    (targets.length * ports.length)), ("completed", 100)]
                (by
                  intro y hy
                  rcases List.mem_cons.mp hy with rfl | hy'
                  · exact ⟨le_refl _, h100,
                      (by decide : (1 : ℕ) ≤ status_rank "completed")⟩
                  · rw [List.mem_singleton.mp hy']
                    exact ⟨h100, by norm_num,
                      (by decide : (1 : ℕ) ≤ status_rank "completed")⟩)
                (pairwise_two _ _ _ h100)
                (pairwise_two _ _ _
                  (by decide : status_rank "completed" ≤ status_rank "completed"))
              refine ⟨?_, ?_, ?_, ?_, ?_, ?_, ?_⟩
              · rw [htr]
                rfl
              · rw [htr]
                exact hfacts.1
              · rw [htr]
                exact hfacts.2.1
              · rw [htr]
                exact hfacts.2.2
              · rw [hfa]
                intro h
                rfl
              · intro h1 h2 h3
                rw [hfa]
                exact ⟨rfl, rfl⟩
              · intro h1 h2
                rw [hfa]
                exact ⟨fun _ => rfl, fun _ => rfl⟩

/-- C6 witness: the amended lifecycle instantiated on the concrete
crash-free single-target scan. -/
theorem c6_witness :
    (execute_scan c2_env "w" ["1.2.3.4"] [80]).trace.head? = some ("running", 0)
    ∧ (∀ x ∈ (execute_scan c2_env "w" ["1.2.3.4"] [80]).trace, 0 ≤ x.2 ∧ x.2 ≤ 100)
    ∧ (execute_scan c2_env "w" ["1.2.3.4"] [80]).trace.Pairwise (fun a b => a.2 ≤ b.2)
    ∧ (execute_scan c2_env "w" ["1.2.3.4"] [80]).trace.Pairwise
        (fun a b => status_rank a.1 ≤ status_rank b.1)
    ∧ ((execute_scan c2_env "w" ["1.2.3.4"] [80]).finalActive.status = "completed" →
        (execute_scan c2_env "w" ["1.2.3.4"] [80]).finalActive.progress = 100)
    ∧ (c2_env.discovery_exn = none → c2_env.detect_exn = none → c2_env.save_exn = none →
        (execute_scan c2_env "w" ["1.2.3.4"] [80]).finalActive.status = "completed"
        ∧ (execute_scan c2_env "w" ["1.2.3.4"] [80]).finalActive.progress = 100)
    ∧ (c2_env.detect_exn = none → c2_env.save_exn = none →
        ((execute_scan c2_env "w" ["1.2.3.4"] [80]).finalActive.progress = 100 ↔
          (execute_scan c2_env "w" ["1.2.3.4"] [80]).finalActive.status = "completed")) :=
  c6_lifecycle c2_env "w" ["1.2.3.4"] [80]

end IntelliScan
